import Mathlib

/-!
# Verification of the VoiceApp agent conversation core

Shallow embedding of the conversation/session core of the VoiceApp backend:
message history management (`BaseAgent.add_message`, `BaseAgent.get_conversation_context`
in `backend/app/agents/base_agent.py`), the MCP tool registry and dispatcher
(`backend/app/mcp/tools.py`, `backend/app/mcp/server.py`), and the LLM provider
factory with fallback (`backend/app/llm/llm_factory.py`).

Modelling conventions: Python `int` is `Nat`/`Int` as appropriate, Python lists are
`List`, Python dicts used as records become structures, `datetime` timestamps and
log calls are omitted (they carry no data used by any property below), and Python
exceptions become `Except`.
-/

namespace VoiceApp

/-- `calculate_token_estimate` from `backend/app/utils/helpers.py`:
`len(text) // 4` (Python `len` counts code points, as does `String.length`). -/
def calculate_token_estimate (text : String) : Nat :=
  text.length / 4

/-- Python list slice `xs[i:]` for an arbitrary (possibly negative) `Int` index:
a negative index counts from the end and clamps at 0; a nonnegative index
drops that many elements from the front. -/
def pySliceFrom (i : Int) (xs : List α) : List α :=
  xs.drop (if i < 0 then ((xs.length : Int) + i).toNat else i.toNat)

/-- A conversation turn (`Message` in `backend/app/agents/base_agent.py`).
The random `id`, wall-clock `timestamp` and free-form `metadata` fields are
omitted: no modelled operation reads them. `token_count` is a field (set by
the constructor from the content) so that histories with arbitrary token
counts can be quantified over. -/
structure Message where
  role : String
  content : String
  token_count : Nat
deriving DecidableEq, Repr

/-- `Message.__init__`: the token count is the estimate computed from the content. -/
def Message.make (role content : String) : Message :=
  { role := role, content := content, token_count := calculate_token_estimate content }

/-- The state of a `BaseAgent` (`backend/app/agents/base_agent.py`): system prompt,
history bound, token budget and the conversation history. Usage counters
(`total_tokens_used`, `total_cost`) and `created_at` are omitted: the modelled
operations never read them. -/
structure AgentState where
  agent_id : String
  system_prompt : String
  max_history : Nat
  max_tokens : Nat
  conversation_history : List Message
deriving DecidableEq, Repr

/-- `BaseAgent.__init__`: `system_prompt or "You are a helpful AI assistant."`
(Python `or` replaces both `None` and the empty string by the default), then the
system message is appended since the resulting prompt is always non-empty. -/
def initAgent (agent_id : String) (system_prompt : Option String)
    (max_history : Nat) (max_tokens : Nat) : AgentState :=
  let prompt :=
    match system_prompt with
    | some s => if s = "" then "You are a helpful AI assistant." else s
    | none => "You are a helpful AI assistant."
  { agent_id := agent_id
    system_prompt := prompt
    max_history := max_history
    max_tokens := max_tokens
    conversation_history := [Message.make "system" prompt] }

/-- `BaseAgent.add_message`: append the new message, then if the history is longer
than `max_history`, keep all system messages followed by the Python slice
`other_msgs[-max_history + len(system_msgs):]` of the non-system messages. -/
def add_message (st : AgentState) (role content : String) : AgentState :=
  let message := Message.make role content
  let h := st.conversation_history ++ [message]
  if h.length > st.max_history then
    let system_msgs := h.filter (fun m => m.role == "system")
    let other_msgs := h.filter (fun m => !(m.role == "system"))
    { st with conversation_history :=
        system_msgs ++ pySliceFrom (-(st.max_history : Int) + system_msgs.length) other_msgs }
  else
    { st with conversation_history := h }

/-- A `{"role": ..., "content": ...}` entry of the context returned by
`get_conversation_context`. -/
structure CtxMessage where
  role : String
  content : String
deriving DecidableEq, Repr

/-- The dictionary built for one message in `get_conversation_context`. -/
def Message.toCtx (m : Message) : CtxMessage :=
  { role := m.role, content := m.content }

/-- The loop of `BaseAgent.get_conversation_context`: walk the (already reversed)
history newest-first, breaking at the first message whose inclusion would push
the running token total over the budget; each included message is inserted at
the front of the accumulated context, so the result is chronological. -/
def selectContext : List Message → Nat → Nat → List CtxMessage → List CtxMessage
  | [], _, _, context => context
  | m :: rest, budget, current, context =>
    if budget < current + m.token_count then context
    else selectContext rest budget (current + m.token_count) (m.toCtx :: context)

/-- The budget resolution `max_tokens or self.max_tokens` of
`BaseAgent.get_conversation_context` (Python `or`: `None` and `0` both fall
back to the agent default). -/
def resolve_max_tokens (st : AgentState) (max_tokens : Option Nat) : Nat :=
  match max_tokens with
  | some m => if m = 0 then st.max_tokens else m
  | none => st.max_tokens

/-- `BaseAgent.get_conversation_context`: resolve the budget, then the
newest-first greedy scan. -/
def get_conversation_context (st : AgentState) (max_tokens : Option Nat) : List CtxMessage :=
  selectContext st.conversation_history.reverse (resolve_max_tokens st max_tokens) 0 []

/-! ## Arithmetic evaluation for the calculator tool

`CalculatorTool.execute` (`backend/app/mcp/tools.py`) calls Python `eval` on the
expression after a character allow-list check. The reachable language is
arithmetic: numbers, `+ - * / // **`, unary signs and parentheses. That fragment
is modelled exactly, with Python numbers (ints and floats) represented as exact
rationals in unnormalized fraction form; tuple syntax (bare commas) is modelled
as an evaluation error. -/

/-- An exact rational as an unnormalized fraction (numerator over nonzero
denominator). Every denominator produced by the evaluator is positive except
possibly through division, whose sign the value still represents correctly. -/
structure PyNum where
  num : Int
  den : Int
deriving DecidableEq, Repr

/-- Integer literal. -/
def PyNum.ofNat (n : Nat) : PyNum := ⟨n, 1⟩

/-- Exact rational addition on fractions. -/
def PyNum.add (a b : PyNum) : PyNum := ⟨a.num * b.den + b.num * a.den, a.den * b.den⟩

/-- Exact rational subtraction on fractions. -/
def PyNum.sub (a b : PyNum) : PyNum := ⟨a.num * b.den - b.num * a.den, a.den * b.den⟩

/-- Exact rational multiplication on fractions. -/
def PyNum.mul (a b : PyNum) : PyNum := ⟨a.num * b.num, a.den * b.den⟩

/-- Exact rational division on fractions (caller checks for a zero divisor). -/
def PyNum.div (a b : PyNum) : PyNum := ⟨a.num * b.den, a.den * b.num⟩

/-- Negation. -/
def PyNum.neg (a : PyNum) : PyNum := ⟨-a.num, a.den⟩

/-- Whether the value is zero (the denominator is never zero). -/
def PyNum.isZero (a : PyNum) : Bool := a.num == 0

/-- Python `//`: the floor of the exact quotient (`Int.fdiv` rounds toward
negative infinity, matching Python). -/
def PyNum.floorDiv (a b : PyNum) : PyNum := ⟨Int.fdiv (a.num * b.den) (a.den * b.num), 1⟩

/-- Tokens of the arithmetic fragment reachable through the calculator's
character allow-list. -/
inductive Tok where
  | num (q : PyNum)
  | plus
  | minus
  | star
  | slash
  | dstar
  | dslash
  | lparen
  | rparen
deriving DecidableEq, Repr

/-- Split a leading run of decimal digits from a character list. -/
def readDigits : List Char → List Char × List Char
  | [] => ([], [])
  | c :: cs =>
    if c.isDigit then
      let (ds, rest) := readDigits cs
      (c :: ds, rest)
    else ([], c :: cs)

/-- Decimal digits to a natural number. -/
def digitsToNat (ds : List Char) : Nat :=
  ds.foldl (fun n c => 10 * n + (c.toNat - Char.toNat '0')) 0

/-- A numeric literal (integer part, optional `.` and fraction part) as an exact
rational, Python-style: `5`, `5.`, `.5` and `5.25` are all numbers, a lone `.`
is a syntax error. -/
def readNumber (cs : List Char) : Except String (PyNum × List Char) :=
  let (ipart, rest) := readDigits cs
  match rest with
  | '.' :: rest2 =>
    let (fpart, rest3) := readDigits rest2
    if ipart = [] ∧ fpart = [] then .error "invalid syntax"
    else .ok (PyNum.add (PyNum.ofNat (digitsToNat ipart))
                ⟨digitsToNat fpart, (10 : Int) ^ fpart.length⟩, rest3)
  | _ =>
    if ipart = [] then .error "invalid syntax"
    else .ok (PyNum.ofNat (digitsToNat ipart), rest)

/-- Tokenizer for the calculator's arithmetic fragment. The fuel exceeds the
input length, so it never runs out on a real input. -/
def tokenize : Nat → List Char → Except String (List Tok)
  | 0, _ => .error "tokenizer fuel exhausted"
  | _, [] => .ok []
  | fuel + 1, c :: cs =>
    if c = ' ' then tokenize fuel cs
    else if c = '+' then do pure (Tok.plus :: (← tokenize fuel cs))
    else if c = '-' then do pure (Tok.minus :: (← tokenize fuel cs))
    else if c = '*' then
      match cs with
      | '*' :: cs2 => do pure (Tok.dstar :: (← tokenize fuel cs2))
      | _ => do pure (Tok.star :: (← tokenize fuel cs))
    else if c = '/' then
      match cs with
      | '/' :: cs2 => do pure (Tok.dslash :: (← tokenize fuel cs2))
      | _ => do pure (Tok.slash :: (← tokenize fuel cs))
    else if c = '(' then do pure (Tok.lparen :: (← tokenize fuel cs))
    else if c = ')' then do pure (Tok.rparen :: (← tokenize fuel cs))
    else if c.isDigit ∨ c = '.' then do
      let (q, rest) ← readNumber (c :: cs)
      pure (Tok.num q :: (← tokenize fuel rest))
    else .error ("unsupported character: " ++ String.mk [c])

/-- Python `**` on exact rationals: integer exponents only (the fragment the
claims exercise); `0` to a negative power is a zero-division error. -/
def pyPow (a b : PyNum) : Except String PyNum :=
  if b.num % b.den == 0 then
    let k : Int := b.num / b.den
    if 0 ≤ k then .ok ⟨a.num ^ k.toNat, a.den ^ k.toNat⟩
    else if a.isZero then .error "0.0 cannot be raised to a negative power"
    else .ok ⟨a.den ^ (-k).toNat, a.num ^ (-k).toNat⟩
  else .error "non-integer exponent not modelled"

mutual

/-- `expr := term (('+' | '-') term)*` -/
def parseExpr : Nat → List Tok → Except String (PyNum × List Tok)
  | 0, _ => .error "parser fuel exhausted"
  | fuel + 1, ts => do
    let (a, rest) ← parseTerm fuel ts
    parseExprLoop fuel a rest

/-- Left-associative fold over `+` and `-`. -/
def parseExprLoop : Nat → PyNum → List Tok → Except String (PyNum × List Tok)
  | 0, _, _ => .error "parser fuel exhausted"
  | fuel + 1, a, ts =>
    match ts with
    | Tok.plus :: rest => do
      let (b, rest2) ← parseTerm fuel rest
      parseExprLoop fuel (PyNum.add a b) rest2
    | Tok.minus :: rest => do
      let (b, rest2) ← parseTerm fuel rest
      parseExprLoop fuel (PyNum.sub a b) rest2
    | _ => .ok (a, ts)

/-- `term := unary (('*' | '/' | '//') unary)*` -/
def parseTerm : Nat → List Tok → Except String (PyNum × List Tok)
  | 0, _ => .error "parser fuel exhausted"
  | fuel + 1, ts => do
    let (a, rest) ← parseUnary fuel ts
    parseTermLoop fuel a rest

/-- Left-associative fold over `*`, `/` (true division) and `//` (floor
division); division by zero is an error, as in Python. -/
def parseTermLoop : Nat → PyNum → List Tok → Except String (PyNum × List Tok)
  | 0, _, _ => .error "parser fuel exhausted"
  | fuel + 1, a, ts =>
    match ts with
    | Tok.star :: rest => do
      let (b, rest2) ← parseUnary fuel rest
      parseTermLoop fuel (PyNum.mul a b) rest2
    | Tok.slash :: rest => do
      let (b, rest2) ← parseUnary fuel rest
      if b.isZero then .error "division by zero"
      else parseTermLoop fuel (PyNum.div a b) rest2
    | Tok.dslash :: rest => do
      let (b, rest2) ← parseUnary fuel rest
      if b.isZero then .error "division by zero"
      else parseTermLoop fuel (PyNum.floorDiv a b) rest2
    | _ => .ok (a, ts)

/-- `unary := ('+' | '-')* power`; unary minus binds looser than `**`, as in
Python (`-2**2 = -4`). -/
def parseUnary : Nat → List Tok → Except String (PyNum × List Tok)
  | 0, _ => .error "parser fuel exhausted"
  | fuel + 1, ts =>
    match ts with
    | Tok.minus :: rest => do
      let (a, rest2) ← parseUnary fuel rest
      .ok (PyNum.neg a, rest2)
    | Tok.plus :: rest => parseUnary fuel rest
    | _ => parsePower fuel ts

/-- `power := atom ('**' unary)?`, right-associative with a signed exponent
allowed, as in Python (`2**-1 = 0.5`). -/
def parsePower : Nat → List Tok → Except String (PyNum × List Tok)
  | 0, _ => .error "parser fuel exhausted"
  | fuel + 1, ts => do
    let (a, rest) ← parseAtom fuel ts
    match rest with
    | Tok.dstar :: rest2 => do
      let (b, rest3) ← parseUnary fuel rest2
      let v ← pyPow a b
      .ok (v, rest3)
    | _ => .ok (a, rest)

/-- `atom := number | '(' expr ')'` -/
def parseAtom : Nat → List Tok → Except String (PyNum × List Tok)
  | 0, _ => .error "parser fuel exhausted"
  | fuel + 1, ts =>
    match ts with
    | Tok.num q :: rest => .ok (q, rest)
    | Tok.lparen :: rest => do
      let (a, rest2) ← parseExpr fuel rest
      match rest2 with
      | Tok.rparen :: rest3 => .ok (a, rest3)
      | _ => .error "expected closing parenthesis"
    | _ => .error "invalid syntax"

end

/-- Python `eval` restricted to the arithmetic fragment reachable through the
calculator's allow-list: tokenize, parse the whole token list as one
expression, reject trailing tokens. -/
def pyEval (expression : String) : Except String PyNum := do
  let ts ← tokenize (expression.length + 1) expression.toList
  let (v, rest) ← parseExpr (10 * ts.length + 10) ts
  if rest = [] then .ok v else .error "invalid syntax"

/-! ## Tool outputs, registry and dispatch -/

/-- JSON-like values carried in tool results
(`Dict[str, Any]` payloads in `backend/app/mcp/tools.py`). -/
inductive JVal where
  | str (s : String)
  | num (q : PyNum)
  | boolean (b : Bool)
  | null
  | arr (xs : List JVal)
  | obj (fields : List (String × JVal))
deriving Repr, BEq

/-- The dictionary built by `format_tool_output` in `backend/app/utils/helpers.py`:
`success` is true exactly when `error is None`. The wall-clock `timestamp` field
is omitted. -/
structure ToolOutput where
  tool : String
  result : Option JVal
  error : Option String
  success : Bool
deriving Repr, BEq

/-- `format_tool_output(tool_name, result, error)`. -/
def format_tool_output (tool_name : String) (result : Option JVal) (error : Option String) :
    ToolOutput :=
  { tool := tool_name, result := result, error := error, success := error.isNone }

/-- Keyword arguments passed to a tool (`parameters: Dict[str, Any]`). -/
def Params := List (String × JVal)

/-- A registered tool's `execute` as seen by `MCPToolRegistry.execute_tool`:
it either returns a formatted output dictionary or raises
(`Except.error` carries the exception message). -/
def Handler := Params → Except String ToolOutput

/-- The registry's `tools` mapping (name to tool). -/
def Registry := List (String × Handler)

/-- The allow-list of `CalculatorTool.execute`: `set("0123456789+-*/()., ")`. -/
def calculator_allowed_chars : List Char := "0123456789+-*/()., ".toList

/-- `CalculatorTool.execute`, parameterized by the evaluator so that
independence from evaluation can be stated: reject the expression before any
evaluation if it has a character outside the allow-list (the raised
`ValueError("Invalid characters in expression")` is caught by the tool's own
`except` and formatted); otherwise evaluate and format the result or the
evaluation failure. -/
def calculator_execute_with (ev : String → Except String PyNum) (expression : String) : ToolOutput :=
  if expression.toList.all (fun c => calculator_allowed_chars.contains c) then
    match ev expression with
    | .ok v =>
      format_tool_output "calculator"
        (some (.obj [("expression", .str expression), ("result", .num v)])) none
    | .error e => format_tool_output "calculator" none (some e)
  else
    format_tool_output "calculator" none (some "Invalid characters in expression")

/-- `CalculatorTool.execute` with the actual arithmetic evaluator. -/
def calculator_execute (expression : String) : ToolOutput :=
  calculator_execute_with pyEval expression

/-- `CalculatorTool.execute` as a registry handler: Python keyword-argument
binding of `execute(self, expression: str)` — a missing or unexpected keyword
raises `TypeError` before the body runs (an `Except.error`), a non-string
`expression` raises inside the body's `try` and is formatted by the tool. -/
def calculator_handler : Handler := fun params =>
  if params.all (fun kv => kv.1 == "expression") then
    match params.lookup "expression" with
    | some (JVal.str e) => .ok (calculator_execute e)
    | some _ => .ok (format_tool_output "calculator" none (some "argument is not iterable"))
    | none => .error "execute() missing 1 required positional argument: 'expression'"
  else .error "execute() got an unexpected keyword argument"

/-- `MCPToolRegistry.execute_tool`: look the tool up by name; an unregistered
name yields a formatted "not found" failure; a raising handler is caught and
formatted; a completed handler's dictionary is returned as-is. It never raises
to the caller (the return type is `ToolOutput`, not `Except`). -/
def execute_tool (reg : Registry) (name : String) (params : Params) : ToolOutput :=
  match reg.lookup name with
  | none => format_tool_output name none (some ("Tool '" ++ name ++ "' not found"))
  | some h =>
    match h params with
    | .ok out => out
    | .error e => format_tool_output name none (some e)

/-- The argument payload of one entry of `tool_calls` in
`MCPServer.execute_tools`: a string-encoded `"arguments"` value (which the
source passes through `json.loads`), an `"arguments"` dictionary, an
`"input"` dictionary, a `"parameters"` dictionary, or none of these
(defaulting to `{}`). -/
inductive ToolArgs where
  | argumentsStr (s : String)
  | argumentsDict (p : Params)
  | inputDict (p : Params)
  | parametersDict (p : Params)
  | absent

/-- One entry of `tool_calls`: `"name"` key, nested `"function": {"name": ...}`
key, and the argument payload. -/
structure ToolCall where
  name : Option String
  function_name : Option String
  args : ToolArgs

/-- `tool_call.get("name") or tool_call.get("function", {}).get("name")` —
Python `or` falls through on a missing or empty `"name"`. -/
def toolCallName (tc : ToolCall) : Option String :=
  match tc.name with
  | some s => if s = "" then tc.function_name else some s
  | none => tc.function_name

/-- The parameter-extraction branches of `MCPServer.execute_tools`,
parameterized by `json.loads` (`jl`), the standard-library collaborator used
on a string-encoded `"arguments"` value: its failure (`json.JSONDecodeError`
on malformed input) is **not** caught anywhere in `execute_tools` and
propagates as an `Except.error`; the dictionary branches never fail. -/
def toolCallParams (jl : String → Except String Params) (tc : ToolCall) :
    Except String Params :=
  match tc.args with
  | .argumentsStr s => jl s
  | .argumentsDict p => .ok p
  | .inputDict p => .ok p
  | .parametersDict p => .ok p
  | .absent => .ok []

/-- `MCPServer.execute_tools`: for each entry in order, resolve the tool name —
`if not tool_name: continue` skips an entry whose resolved name is missing or
empty — extract the parameters (an uncaught `json.loads` failure on a
string-encoded `"arguments"` value propagates out of the whole call, so the
caller receives an exception and **zero** results, the already-computed ones
being discarded), execute the tool (via `MCPServer.execute_tool`, which
delegates to `MCPToolRegistry.execute_tool`) and append the result. -/
def execute_tools (jl : String → Except String Params) (reg : Registry) :
    List ToolCall → Except String (List ToolOutput)
  | [] => .ok []
  | tc :: rest =>
    match toolCallName tc with
    | none => execute_tools jl reg rest
    | some n =>
      if n = "" then execute_tools jl reg rest
      else
        match toolCallParams jl tc with
        | .error e => .error e
        | .ok params =>
          match execute_tools jl reg rest with
          | .error e => .error e
          | .ok results => .ok (execute_tool reg n params :: results)

/-! ## LLM provider factory and fallback

`LLMFactory` in `backend/app/llm/llm_factory.py`. A client is identified by its
provider name (the `_clients` cache maps each name to at most one client and
the settings are fixed during a call, so caching is observationally irrelevant
and omitted). A provider's `chat` coroutine is a parameter
(`provider name → Except message response`), since its body is a vendor SDK
call outside the core. -/

/-- The credential part of `Settings` (`backend/app/config.py`): whether each
API key is configured (truthy). -/
structure LLMSettings where
  anthropic_api_key : Bool
  openai_api_key : Bool
deriving DecidableEq, Repr

/-- The distinguishable failures of the factory paths, one per `raise` site
(all are `ValueError` in Python, told apart by their messages) plus the
propagated failure of a `chat` call. -/
inductive LLMError where
  | key_not_configured (provider : String)
  | unknown_provider (provider : String)
  | no_providers_configured
  | chat_failed (provider msg : String)
deriving DecidableEq, Repr

/-- `LLMFactory.get_client`: `provider or cls._default_provider.value` (Python
`or`: `None` and `""` fall back to the default), then construct the named
client, raising if its API key is missing or the name is unknown. The returned
client is identified by its provider name. -/
def get_client (s : LLMSettings) (default_provider : String) (provider : Option String) :
    Except LLMError String :=
  let p :=
    match provider with
    | some q => if q = "" then default_provider else q
    | none => default_provider
  if p = "claude" then
    if s.anthropic_api_key then .ok p else .error (.key_not_configured p)
  else if p = "openai" then
    if s.openai_api_key then .ok p else .error (.key_not_configured p)
  else .error (.unknown_provider p)

/-- `LLMFactory.get_available_providers`: the providers whose API key is
configured, Claude first. -/
def get_available_providers (s : LLMSettings) : List String :=
  (if s.anthropic_api_key then ["claude"] else []) ++
    (if s.openai_api_key then ["openai"] else [])

/-- The `for provider in available` loop of `LLMFactory.get_fallback_client`:
return the first client for a provider different from the **default** provider
whose construction succeeds (a failing construction is caught and the loop
continues). -/
def fallbackLoop (s : LLMSettings) (default_provider : String) :
    List String → Option String
  | [] => none
  | p :: rest =>
    if p = default_provider then fallbackLoop s default_provider rest
    else
      match get_client s default_provider (some p) with
      | .ok c => some c
      | .error _ => fallbackLoop s default_provider rest

/-- `LLMFactory.get_fallback_client`: raise `ValueError("No LLM providers
configured")` when no provider has a key; otherwise the first available
provider other than the default, falling back to `get_client()` on the default
itself when no alternative exists. -/
def get_fallback_client (s : LLMSettings) (default_provider : String) :
    Except LLMError String :=
  let available := get_available_providers s
  if available = [] then .error .no_providers_configured
  else
    match fallbackLoop s default_provider available with
    | some c => .ok c
    | none => get_client s default_provider none

/-- `LLMFactory.chat_with_fallback`: try `get_client(provider).chat(...)`; on
any failure (client construction or the chat call), obtain the fallback client
— whose own failure propagates — and make one retry chat call, whose failure
also propagates. -/
def chat_with_fallback (s : LLMSettings) (default_provider : String)
    (chat : String → Except String String) (provider : Option String) :
    Except LLMError String :=
  let primary : Except LLMError String :=
    match get_client s default_provider provider with
    | .ok c =>
      match chat c with
      | .ok r => .ok r
      | .error m => .error (.chat_failed c m)
    | .error e => .error e
  match primary with
  | .ok r => .ok r
  | .error _ =>
    match get_fallback_client s default_provider with
    | .ok c =>
      match chat c with
      | .ok r => .ok r
      | .error m => .error (.chat_failed c m)
    | .error e => .error e

/-- A registry holding only the calculator, used as a concrete input. -/
def exampleRegistry : Registry := [("calculator", calculator_handler)]

/-- A concrete well-formed batch entry invoking the calculator. -/
def calcCall : ToolCall :=
  { name := some "calculator", function_name := none,
    args := ToolArgs.argumentsDict [("expression", .str "2+2*3")] }

/-- A concrete batch entry naming an unregistered tool via `"function"."name"`. -/
def nopeCall : ToolCall :=
  { name := none, function_name := some "nope", args := ToolArgs.absent }

/-- A concrete batch entry carrying no tool name at all. -/
def namelessCall : ToolCall :=
  { name := none, function_name := none, args := ToolArgs.absent }

/-- A concrete named batch entry whose `"arguments"` value is a malformed JSON
string. -/
def malformedCall : ToolCall :=
  { name := some "calculator", function_name := none,
    args := ToolArgs.argumentsStr "\x7bnot json" }

/-- A concrete `json.loads` behavior: parses the one well-formed argument
string used in examples and fails on everything else with the message
`json.JSONDecodeError` produces for malformed input. -/
def exampleJsonLoads : String → Except String Params :=
  fun s =>
    if s = "\x7b\"expression\": \"2+2*3\"\x7d" then .ok [("expression", .str "2+2*3")]
    else .error "Expecting value: line 1 column 1 (char 0)"

/-- A concrete chat behavior where "claude" always fails and "openai"
succeeds. -/
def exampleChatClaudeFails : String → Except String String :=
  fun p => if p = "claude" then .error "overloaded" else .ok "hello from openai"

/-- A concrete chat behavior where "openai" always fails and "claude"
succeeds. -/
def exampleChatOpenAIFails : String → Except String String :=
  fun p => if p = "openai" then .error "boom" else .ok "claude response"

/-! ## Shared helper lemmas -/

/-- A Python slice `xs[i:]` is a `drop` of some count. -/
theorem pySliceFrom_eq_drop (i : Int) (xs : List α) : ∃ k, pySliceFrom i xs = xs.drop k :=
  ⟨_, rfl⟩

/-! ## C1: history length bound after append -/

/-- C1 counterexample: with `max_history = 1` and system preamble "S", appending
a second system-role turn leaves a history of length 2 > 1: the trim slice
index `-max_history + len(system_msgs)` is nonnegative, so nothing is dropped.
The claimed invariant `len(history) <= max_history` fails for histories with at
least `max_history` system turns. -/
theorem add_message_can_exceed_max_history :
    ((add_message (initAgent "agent" (some "S") 1 4000) "system" "T").conversation_history).length
      = 2 ∧
    ¬ ((add_message (initAgent "agent" (some "S") 1 4000) "system" "T").conversation_history).length
      ≤ (initAgent "agent" (some "S") 1 4000).max_history := by
  constructor
  · rfl
  · decide

/-- C1 amended: after every `add_message` call, `len(history) <= max_history`
holds provided the history (with the new message) contains strictly fewer than
`max_history` system-role turns — in particular for every conversation whose
only system turn is the preamble, with `max_history ≥ 2`. -/
theorem add_message_length_le (st : AgentState) (role content : String)
    (hsys : (((st.conversation_history ++ [Message.make role content]).filter
        (fun m => m.role == "system")).length) < st.max_history) :
    ((add_message st role content).conversation_history).length ≤ st.max_history := by
  simp only [add_message]
  split
  · rename_i hlen
    have hpart :
        (((st.conversation_history ++ [Message.make role content]).filter
            (fun m => m.role == "system")).length) +
          (((st.conversation_history ++ [Message.make role content]).filter
            (fun m => !(m.role == "system"))).length) =
          (st.conversation_history ++ [Message.make role content]).length :=
      (List.length_eq_length_filter_add (fun (m : Message) => m.role == "system")).symm
    simp only [pySliceFrom, List.length_append, List.length_drop]
    split
    · omega
    · rename_i hneg
      omega
  · rename_i hlen
    simpa using Nat.le_of_not_lt hlen

/-- C1 witness input: a fresh agent with `max_history = 3` appending a user
turn keeps the history within the bound. -/
theorem add_message_length_le_witness :
    ((((initAgent "a" (some "S") 3 4000).conversation_history ++
        [Message.make "user" "A"]).filter (fun m => m.role == "system")).length) <
      (initAgent "a" (some "S") 3 4000).max_history ∧
    ((add_message (initAgent "a" (some "S") 3 4000) "user" "A").conversation_history).length
      ≤ (initAgent "a" (some "S") 3 4000).max_history :=
  ⟨by decide, add_message_length_le (initAgent "a" (some "S") 3 4000) "user" "A" (by decide)⟩

/-! ## C2: system turns survive append-and-trim -/

/-- C2: an `add_message` call (append plus the trim it triggers) never removes a
system-role turn: every system turn in the history before the call is still in
the history afterwards, for every history configuration. -/
theorem add_message_keeps_system_turns (st : AgentState) (role content : String)
    (m : Message) (hm : m ∈ st.conversation_history) (hrole : m.role = "system") :
    m ∈ (add_message st role content).conversation_history := by
  simp only [add_message]
  split
  · refine List.mem_append_left _ ?_
    refine List.mem_filter.mpr ⟨List.mem_append_left _ hm, ?_⟩
    simp [hrole]
  · exact List.mem_append_left _ hm

/-- C2 witness input: the system preamble survives an append that triggers a
trim (`max_history = 1`). -/
theorem add_message_keeps_system_turns_witness :
    Message.make "system" "S" ∈ (initAgent "a" (some "S") 1 4000).conversation_history ∧
    (Message.make "system" "S").role = "system" ∧
    Message.make "system" "S" ∈
      (add_message (initAgent "a" (some "S") 1 4000) "user" "hi").conversation_history :=
  ⟨by decide, rfl,
    add_message_keeps_system_turns (initAgent "a" (some "S") 1 4000) "user" "hi"
      (Message.make "system" "S") (by decide) rfl⟩

/-! ## C3: the max_history = 3 scenario -/

/-- C3 counterexample: with `max_history = 3` and preamble "S", appending user
"A", assistant "B", user "C", assistant "D" leaves history contents
["S", "C", "D"], not the claimed ["S", "B", "C", "D"] (which would anyway have
length 4 > 3): the trim runs twice, evicting "A" and then "B". -/
theorem scenario_history_not_SBCD :
    ((add_message (add_message (add_message (add_message
        (initAgent "session" (some "S") 3 4000)
        "user" "A") "assistant" "B") "user" "C") "assistant" "D").conversation_history).map
      Message.content = ["S", "C", "D"] ∧
    ((add_message (add_message (add_message (add_message
        (initAgent "session" (some "S") 3 4000)
        "user" "A") "assistant" "B") "user" "C") "assistant" "D").conversation_history).map
      Message.content ≠ ["S", "B", "C", "D"] := by
  constructor
  · rfl
  · decide

/-- C3 amended: the scenario leaves history `[S, C, D]` — the system preamble
plus the two most recent non-system turns, the older non-system turns "A" and
"B" having been evicted by the two trims. -/
theorem scenario_history_SCD :
    ((add_message (add_message (add_message (add_message
        (initAgent "session" (some "S") 3 4000)
        "user" "A") "assistant" "B") "user" "C") "assistant" "D").conversation_history).map
      (fun m => (m.role, m.content)) =
      [("system", "S"), ("user", "C"), ("assistant", "D")] := by
  rfl

/-! ## C10: trim reorders system turns to the front -/

/-- C10: whenever `add_message` triggers trimming, the resulting history is the
system-role turns (in their original relative order) followed by a suffix of
the non-system turns (in their original relative order): every system turn
precedes every non-system turn, however they were interleaved before. -/
theorem add_message_trim_partitions (st : AgentState) (role content : String)
    (htrim : st.max_history <
      (st.conversation_history ++ [Message.make role content]).length) :
    ∃ k, (add_message st role content).conversation_history =
      ((st.conversation_history ++ [Message.make role content]).filter
          (fun m => m.role == "system")) ++
        (((st.conversation_history ++ [Message.make role content]).filter
          (fun m => !(m.role == "system"))).drop k) := by
  simp only [add_message]
  rw [if_pos htrim]
  exact ⟨_, rfl⟩

/-- C10 witness input: an interleaved history (`max_history = 2`) whose trim
moves the late system turn in front of the surviving non-system turn: the
result is the system turn followed by the newest non-system turn (the suffix
of the non-system turns after dropping one). -/
theorem add_message_trim_partitions_witness :
    (let st : AgentState :=
      { agent_id := "a", system_prompt := "S", max_history := 2, max_tokens := 4000,
        conversation_history :=
          [Message.make "user" "u1", Message.make "system" "s2"] }
     st.max_history < (st.conversation_history ++ [Message.make "user" "u2"]).length ∧
     (add_message st "user" "u2").conversation_history =
      ((st.conversation_history ++ [Message.make "user" "u2"]).filter
          (fun m => m.role == "system")) ++
        (((st.conversation_history ++ [Message.make "user" "u2"]).filter
          (fun m => !(m.role == "system"))).drop 1)) := by
  refine ⟨by decide, ?_⟩
  have h := add_message_trim_partitions
    { agent_id := "a", system_prompt := "S", max_history := 2, max_tokens := 4000,
      conversation_history :=
        [Message.make "user" "u1", Message.make "system" "s2"] }
    "user" "u2" (by decide)
  exact rfl

/-! ## C4 and C5: the context windower -/

/-- The greedy scan takes a budget-bounded prefix of the newest-first list and
prepends it (re-reversed, hence chronological) to the accumulator. -/
theorem selectContext_shape (budget : Nat) :
    ∀ (l : List Message) (current : Nat) (acc : List CtxMessage), current ≤ budget →
      ∃ k, selectContext l budget current acc =
          ((l.take k).reverse.map Message.toCtx) ++ acc ∧
        current + ((l.take k).map Message.token_count).sum ≤ budget := by
  intro l
  induction l with
  | nil =>
    intro current acc h
    exact ⟨0, by simp [selectContext], by simpa using h⟩
  | cons m rest ih =>
    intro current acc h
    by_cases hb : budget < current + m.token_count
    · exact ⟨0, by simp [selectContext, hb], by simpa using h⟩
    · obtain ⟨k, heq, hsum⟩ := ih (current + m.token_count) (m.toCtx :: acc)
        (Nat.le_of_not_lt hb)
      refine ⟨k + 1, ?_, ?_⟩
      · simp only [selectContext, if_neg hb, heq, List.take_succ_cons, List.reverse_cons,
          List.map_append, List.map_cons, List.map_nil, List.append_assoc,
          List.singleton_append]
      · simp only [List.take_succ_cons, List.map_cons, List.sum_cons]
        omega

/-- C4: for every history and every token budget,
`BaseAgent.get_conversation_context` returns a contiguous chronological suffix
of the history, and the sum of the `token_count` values of the included turns
is at most the resolved budget — unconditionally, so in particular "except
possibly for the single newest turn" holds. -/
theorem get_conversation_context_suffix_within_budget (st : AgentState)
    (max_tokens : Option Nat) :
    ∃ tail : List Message, tail <:+ st.conversation_history ∧
      get_conversation_context st max_tokens = tail.map Message.toCtx ∧
      (tail.map Message.token_count).sum ≤ resolve_max_tokens st max_tokens := by
  obtain ⟨k, heq, hsum⟩ := selectContext_shape (resolve_max_tokens st max_tokens)
    st.conversation_history.reverse 0 [] (Nat.zero_le _)
  refine ⟨(st.conversation_history.reverse.take k).reverse, ?_, ?_, ?_⟩
  · rw [← List.reverse_prefix, List.reverse_reverse]
    exact List.take_prefix k st.conversation_history.reverse
  · simpa [get_conversation_context] using heq
  · simpa [List.sum_reverse] using hsum

/-- C5 counterexample: a non-empty history whose single newest turn alone
exceeds the budget yields an **empty** context — the loop breaks before
inserting the oversized newest turn rather than including it. -/
theorem get_conversation_context_empty_on_oversized_newest :
    (let st : AgentState :=
      { agent_id := "voice", system_prompt := "", max_history := 50, max_tokens := 4000,
        conversation_history := [Message.make "user" "please summarize this transcript"] }
     st.conversation_history ≠ [] ∧
     3 < (Message.make "user" "please summarize this transcript").token_count ∧
     get_conversation_context st (some 3) = []) := by
  refine ⟨by decide, by decide, rfl⟩

/-- C5 amended: for every non-empty history, the context is non-empty exactly
when the newest turn fits the (positive) budget; when the newest turn alone
exceeds the budget the context is empty — the newest turn is excluded, not
included. -/
theorem get_conversation_context_nonempty_iff_newest_fits (st : AgentState)
    (msgs : List Message) (m : Message) (b : Nat)
    (hh : st.conversation_history = msgs ++ [m]) (hb : 0 < b) :
    (m.token_count ≤ b → get_conversation_context st (some b) ≠ []) ∧
    (b < m.token_count → get_conversation_context st (some b) = []) := by
  have hbudget : resolve_max_tokens st (some b) = b := by
    simp [resolve_max_tokens, Nat.pos_iff_ne_zero.mp hb]
  constructor
  · intro hfit
    have hnot : ¬ b < 0 + m.token_count := by omega
    obtain ⟨k, heq, _⟩ := selectContext_shape b msgs.reverse (0 + m.token_count)
      (m.toCtx :: []) (by omega)
    simp only [get_conversation_context, hbudget, hh, List.reverse_append,
      List.reverse_singleton, List.singleton_append, selectContext, if_neg hnot, heq]
    intro hcontra
    exact List.append_ne_nil_of_right_ne_nil _ (by simp) hcontra
  · intro hover
    have hlt : b < 0 + m.token_count := by omega
    simp only [get_conversation_context, hbudget, hh, List.reverse_append,
      List.reverse_singleton, List.singleton_append, selectContext, if_pos hlt]

/-- C5 amended witness input: a two-turn history with budget 2 — the newest
turn (8 characters, 2 tokens) fits, so the context is non-empty. -/
theorem get_conversation_context_nonempty_witness :
    (Message.make "assistant" "12345678").token_count ≤ 2 ∧
    get_conversation_context
      { agent_id := "a", system_prompt := "S", max_history := 50, max_tokens := 4000,
        conversation_history :=
          [Message.make "user" "hello there", Message.make "assistant" "12345678"] }
      (some 2) ≠ [] :=
  ⟨by decide,
    (get_conversation_context_nonempty_iff_newest_fits
      { agent_id := "a", system_prompt := "S", max_history := 50, max_tokens := 4000,
        conversation_history :=
          [Message.make "user" "hello there", Message.make "assistant" "12345678"] }
      [Message.make "user" "hello there"] (Message.make "assistant" "12345678") 2
      rfl (by decide)).1 (by decide)⟩

/-! ## C6: the calculator tool -/

/-- C6: the calculator evaluates `"2+2*3"` to the value 8 with `success=true`;
and every expression with a character outside the allowed set of digits,
operators, parentheses, dot, comma and space produces `success=false` with the
"Invalid characters in expression" error under **any** evaluator — evaluation
is never attempted. -/
theorem calculator_rejects_before_eval :
    calculator_execute "2+2*3" =
      format_tool_output "calculator"
        (some (.obj [("expression", .str "2+2*3"), ("result", .num ⟨8, 1⟩)])) none ∧
    (calculator_execute "2+2*3").success = true ∧
    ∀ (ev : String → Except String PyNum) (e : String),
      ¬ (e.toList.all (fun c => calculator_allowed_chars.contains c) = true) →
      calculator_execute_with ev e =
        format_tool_output "calculator" none (some "Invalid characters in expression") ∧
      (calculator_execute_with ev e).success = false := by
  refine ⟨rfl, rfl, ?_⟩
  intro ev e hbad
  unfold calculator_execute_with
  rw [if_neg hbad]
  exact ⟨rfl, rfl⟩

/-- C6 witness input: `"2+import"` contains disallowed characters, so every
evaluator (here the real one) yields the invalid-characters failure. -/
theorem calculator_rejects_before_eval_witness :
    ¬ ("2+import".toList.all (fun c => calculator_allowed_chars.contains c) = true) ∧
    calculator_execute_with pyEval "2+import" =
      format_tool_output "calculator" none (some "Invalid characters in expression") :=
  ⟨by decide, (calculator_rejects_before_eval.2.2 pyEval "2+import" (by decide)).1⟩

/-! ## C8: single-tool dispatch -/

/-- C8: `MCPToolRegistry.execute_tool` (whose total return type shows it never
raises to the caller): an unregistered name yields `success=false` with a
"Tool ... not found" error; a handler that raises yields `success=false` with
the failure message; a handler that completes with a value yields the
formatted `success=true` result carrying that value. -/
theorem execute_tool_contract (reg : Registry) (name : String) (params : Params) :
    (reg.lookup name = none →
      execute_tool reg name params =
        format_tool_output name none (some ("Tool '" ++ name ++ "' not found")) ∧
      (execute_tool reg name params).success = false) ∧
    (∀ (h : Handler) (msg : String), reg.lookup name = some h → h params = .error msg →
      execute_tool reg name params = format_tool_output name none (some msg) ∧
      (execute_tool reg name params).success = false) ∧
    (∀ (h : Handler) (v : JVal), reg.lookup name = some h →
      h params = .ok (format_tool_output name (some v) none) →
      execute_tool reg name params = format_tool_output name (some v) none ∧
      (execute_tool reg name params).success = true) := by
  refine ⟨?_, ?_, ?_⟩
  · intro hnone
    simp [execute_tool, hnone, format_tool_output]
  · intro h msg hsome herr
    simp [execute_tool, hsome, herr, format_tool_output]
  · intro h v hsome hok
    simp [execute_tool, hsome, hok, format_tool_output]

/-- C8 witness inputs: an unregistered name, a raising handler, and the
calculator completing on `"2+2*3"`. -/
theorem execute_tool_contract_witness :
    (execute_tool [] "magic" [] =
      format_tool_output "magic" none (some ("Tool '" ++ "magic" ++ "' not found"))) ∧
    (execute_tool [("boom", fun _ => .error "kaboom")] "boom" [] =
      format_tool_output "boom" none (some "kaboom")) ∧
    (execute_tool [("calculator", calculator_handler)] "calculator"
        [("expression", .str "2+2*3")] =
      format_tool_output "calculator"
        (some (.obj [("expression", .str "2+2*3"), ("result", .num ⟨8, 1⟩)])) none) :=
  ⟨((execute_tool_contract [] "magic" []).1 rfl).1,
    ((execute_tool_contract [("boom", fun _ => .error "kaboom")] "boom" []).2.1
      (fun _ => .error "kaboom") "kaboom" rfl rfl).1,
    ((execute_tool_contract [("calculator", calculator_handler)] "calculator"
        [("expression", .str "2+2*3")]).2.2 calculator_handler
      (.obj [("expression", .str "2+2*3"), ("result", .num ⟨8, 1⟩)]) rfl rfl).1⟩

/-! ## C7: batch dispatch -/

/-- C7 counterexample: a batch containing one invocation that carries no tool
name produces zero results — `execute_tools` silently skips it (`continue`),
so it does **not** return exactly one result per requested invocation. -/
theorem execute_tools_drops_nameless :
    execute_tools exampleJsonLoads exampleRegistry [namelessCall] = .ok [] ∧
    ([namelessCall] : List ToolCall).length = 1 := by
  exact ⟨rfl, rfl⟩

/-- C7 amended: `execute_tools` returns exactly one result per invocation, in
input order and with independent failures, only for batches in which every
invocation carries a non-empty tool name (under `"name"` or
`"function"."name"`) **and** its argument extraction succeeds: the batch
result is then exactly the per-invocation `execute_tool` outputs in input
order, so one tool's failure cannot abort or alter the others. Otherwise: an
invocation with a missing or empty name is silently skipped and produces no
result, and a named invocation whose string-encoded `"arguments"` value fails
JSON parsing aborts the entire batch — the uncaught `json.loads` failure
propagates and the caller receives zero results. -/
theorem execute_tools_one_result_each :
    (∀ (jl : String → Except String Params) (reg : Registry) (calls : List ToolCall),
      (∀ tc ∈ calls, ∃ n, toolCallName tc = some n ∧ n ≠ "") →
      (∀ tc ∈ calls, ∃ p, toolCallParams jl tc = .ok p) →
      execute_tools jl reg calls =
        .ok (calls.map (fun tc => execute_tool reg ((toolCallName tc).getD "")
          ((toolCallParams jl tc).toOption.getD [])))) ∧
    (∀ (jl : String → Except String Params) (reg : Registry) (tc : ToolCall)
        (rest : List ToolCall) (n e : String),
      toolCallName tc = some n → n ≠ "" → toolCallParams jl tc = .error e →
      execute_tools jl reg (tc :: rest) = .error e) := by
  constructor
  · intro jl reg calls hnamed hargs
    induction calls with
    | nil => rfl
    | cons tc rest ih =>
      obtain ⟨n, hn, hne⟩ := hnamed tc (List.mem_cons_self tc rest)
      obtain ⟨p, hp⟩ := hargs tc (List.mem_cons_self tc rest)
      have hrest := ih (fun tc2 h2 => hnamed tc2 (List.mem_cons_of_mem tc h2))
        (fun tc2 h2 => hargs tc2 (List.mem_cons_of_mem tc h2))
      simp only [execute_tools, hn, if_neg hne, hp, hrest, List.map_cons,
        Option.getD_some, Except.toOption]
  · intro jl reg tc rest n e hn hne he
    simp only [execute_tools, hn, if_neg hne, he]

/-- C7 amended witness inputs: a well-formed two-invocation batch — a
succeeding calculator call followed by an unregistered tool — yields exactly
one result per invocation in input order, the failure not disturbing the
success; and a batch led by a named invocation with malformed JSON arguments
aborts with zero results. -/
theorem execute_tools_one_result_each_witness :
    execute_tools exampleJsonLoads exampleRegistry [calcCall, nopeCall] =
      .ok [format_tool_output "calculator"
            (some (.obj [("expression", .str "2+2*3"), ("result", .num ⟨8, 1⟩)])) none,
           format_tool_output "nope" none (some ("Tool '" ++ "nope" ++ "' not found"))] ∧
    execute_tools exampleJsonLoads exampleRegistry [malformedCall, calcCall] =
      .error "Expecting value: line 1 column 1 (char 0)" := by
  constructor
  · have hnamed : ∀ tc ∈ [calcCall, nopeCall], ∃ n, toolCallName tc = some n ∧ n ≠ "" := by
      intro tc htc
      rcases List.mem_cons.mp htc with rfl | htc2
      · exact ⟨"calculator", rfl, by decide⟩
      rcases List.mem_cons.mp htc2 with rfl | htc3
      · exact ⟨"nope", rfl, by decide⟩
      · cases htc3
    have hargs : ∀ tc ∈ [calcCall, nopeCall],
        ∃ p, toolCallParams exampleJsonLoads tc = .ok p := by
      intro tc htc
      rcases List.mem_cons.mp htc with rfl | htc2
      · exact ⟨[("expression", .str "2+2*3")], rfl⟩
      rcases List.mem_cons.mp htc2 with rfl | htc3
      · exact ⟨[], rfl⟩
      · cases htc3
    rw [execute_tools_one_result_each.1 exampleJsonLoads exampleRegistry
      [calcCall, nopeCall] hnamed hargs]
    rfl
  · exact execute_tools_one_result_each.2 exampleJsonLoads exampleRegistry
      malformedCall [calcCall] "calculator" "Expecting value: line 1 column 1 (char 0)"
      rfl (by decide) rfl

/-! ## C9: provider fallback -/

/-- With no API key configured, `get_client` fails whatever provider is asked
for. -/
theorem get_client_no_keys (d : String) (provider : Option String) :
    ∃ e, get_client ⟨false, false⟩ d provider = .error e := by
  simp only [get_client]
  set p := (match provider with | some q => if q = "" then d else q | none => d) with hp
  by_cases h1 : p = "claude"
  · rw [if_pos h1]
    exact ⟨_, rfl⟩
  · rw [if_neg h1]
    by_cases h2 : p = "openai"
    · rw [if_pos h2]
      exact ⟨_, rfl⟩
    · rw [if_neg h2]
      exact ⟨_, rfl⟩

/-- C9 counterexample: both providers configured, default "claude", preferred
provider "openai" always failing while "claude" would succeed —
`chat_with_fallback` retries **"openai" again** (the fallback scan excludes
the default provider, not the preferred one) and surfaces its failure instead
of returning the other configured provider's successful response. -/
theorem chat_with_fallback_retries_preferred :
    chat_with_fallback ⟨true, true⟩ "claude" exampleChatOpenAIFails (some "openai")
      = .error (.chat_failed "openai" "boom") ∧
    exampleChatOpenAIFails "claude" = .ok "claude response" := by
  exact ⟨rfl, rfl⟩

/-- C9 amended: when the preferred provider **is the default** (explicitly or
by omission) and always fails while the other configured provider succeeds,
`chat_with_fallback` returns the other provider's successful response with a
single retry — stated for both possible defaults; and with zero configured
providers it fails with the "No LLM providers configured" error whatever the
requested provider. When the preferred provider differs from the default, the
fallback may retry the preferred provider itself (see the counterexample). -/
theorem chat_with_fallback_contract :
    (∀ (s : LLMSettings) (chat : String → Except String String) (r msg : String)
        (provider : Option String),
      s.anthropic_api_key = true → s.openai_api_key = true →
      (provider = some "claude" ∨ provider = none) →
      chat "claude" = .error msg → chat "openai" = .ok r →
      chat_with_fallback s "claude" chat provider = .ok r) ∧
    (∀ (s : LLMSettings) (chat : String → Except String String) (r msg : String)
        (provider : Option String),
      s.anthropic_api_key = true → s.openai_api_key = true →
      (provider = some "openai" ∨ provider = none) →
      chat "openai" = .error msg → chat "claude" = .ok r →
      chat_with_fallback s "openai" chat provider = .ok r) ∧
    (∀ (d : String) (chat : String → Except String String) (provider : Option String),
      chat_with_fallback ⟨false, false⟩ d chat provider
        = .error .no_providers_configured) := by
  refine ⟨?_, ?_, ?_⟩
  · intro s chat r msg provider ha ho hp hfail hok
    rcases hp with rfl | rfl <;>
      simp [chat_with_fallback, get_client, get_fallback_client, get_available_providers,
        fallbackLoop, ha, ho, hfail, hok]
  · intro s chat r msg provider ha ho hp hfail hok
    rcases hp with rfl | rfl <;>
      simp [chat_with_fallback, get_client, get_fallback_client, get_available_providers,
        fallbackLoop, ha, ho, hfail, hok]
  · intro d chat provider
    obtain ⟨e, he⟩ := get_client_no_keys d provider
    simp [chat_with_fallback, he, get_fallback_client, get_available_providers]

/-- C9 witness inputs: default preferred "claude" failing falls back to the
configured "openai" response; zero configured keys yield the
no-providers-configured failure. -/
theorem chat_with_fallback_contract_witness :
    chat_with_fallback ⟨true, true⟩ "claude" exampleChatClaudeFails (some "claude")
      = .ok "hello from openai" ∧
    chat_with_fallback ⟨false, false⟩ "claude" exampleChatClaudeFails none
      = .error .no_providers_configured :=
  ⟨chat_with_fallback_contract.1 ⟨true, true⟩ exampleChatClaudeFails
      "hello from openai" "overloaded" (some "claude") rfl rfl (Or.inl rfl) rfl rfl,
    chat_with_fallback_contract.2.2 "claude" exampleChatClaudeFails none⟩

end VoiceApp
